import Mathlib

/-!
Verification development for the ContentExtractor document-extraction
pipeline (src/o1_code.py).  The Python code is shallowly embedded:
pure control flow is translated directly; external collaborators
(the libmagic MIME sniffer, the OCR engine, the PDF rasterizer, pandas
rendering, python-docx) are oracle function parameters at the library
boundary; raised Python exceptions become an explicit error monad.
-/

/-- Model of a raised Python exception.  The constructor raised models
a raise of Exception(msg) inside the repository code or an error
propagated from a library call; attributeError models an AttributeError
raised by the interpreter itself (e.g. calling a method on None). -/
inductive PyError where
  | raised (msg : String)
  | attributeError (msg : String)
deriving DecidableEq

/-- A file on disk as the pipeline sees it: its full path string, its
base name (Python pathlib .name) and its byte content. -/
structure PyFile where
  path : String
  name : String
  content : List UInt8
deriving DecidableEq

/-- Class attribute PDF of ContentExtractor. -/
def PDF : String := "PDF"

/-- Class attribute IMAGE of ContentExtractor. -/
def IMAGE : String := "Image"

/-- Class attribute DOCX of ContentExtractor. -/
def DOCX : String := "DOCX"

/-- Class attribute TXT of ContentExtractor. -/
def TXT : String := "TXT"

/-- Class attribute EXCEL of ContentExtractor. -/
def EXCEL : String := "EXCEL"

/-- Class attribute CSV of ContentExtractor. -/
def CSV : String := "CSV"

/-- ContentExtractor.identify_file_type.  The magic library computes a
MIME type from the file content; that sniffing step is the oracle
parameter sniff, a function of the byte content only.  The if/elif
chain below mirrors the source line by line; the final else raises
Exception with the file name. -/
def identify_file_type (sniff : List UInt8 → String) (file_path : PyFile) :
    Except PyError String :=
  let mime_type := sniff file_path.content
  if mime_type = "application/pdf" then
    Except.ok PDF
  else if mime_type ∈ ["image/jpeg", "image/png", "image/gif", "image/tiff"] then
    Except.ok IMAGE
  else if mime_type = "application/vnd.openxmlformats-officedocument.wordprocessingml.document" then
    Except.ok DOCX
  else if mime_type = "text/plain" then
    Except.ok TXT
  else if mime_type ∈ ["application/vnd.openxmlformats-officedocument.spreadsheetml.sheet",
                       "application/vnd.ms-excel"] then
    Except.ok EXCEL
  else if mime_type ∈ ["text/csv", "application/csv"] then
    Except.ok CSV
  else
    Except.error (PyError.raised ("Unsupported file type: " ++ file_path.name))

/-- The if/elif chain of identify_file_type as a function of the
sniffed MIME type and the file name, used to reason about the
classification separately from the sniffing step. -/
def classifyCore (mime_type : String) (name : String) : Except PyError String :=
  if mime_type = "application/pdf" then
    Except.ok PDF
  else if mime_type ∈ ["image/jpeg", "image/png", "image/gif", "image/tiff"] then
    Except.ok IMAGE
  else if mime_type = "application/vnd.openxmlformats-officedocument.wordprocessingml.document" then
    Except.ok DOCX
  else if mime_type = "text/plain" then
    Except.ok TXT
  else if mime_type ∈ ["application/vnd.openxmlformats-officedocument.spreadsheetml.sheet",
                       "application/vnd.ms-excel"] then
    Except.ok EXCEL
  else if mime_type ∈ ["text/csv", "application/csv"] then
    Except.ok CSV
  else
    Except.error (PyError.raised ("Unsupported file type: " ++ name))

/-- The per-type extraction routines of ContentExtractor as used by
get_text_from_docs, each an opaque function of the file (their bodies
call external OCR / pandas / docx collaborators; the internal structure
of the PDF and spreadsheet routines is modelled separately below). -/
structure Extractors where
  sniff : List UInt8 → String
  convert_pdf_to_text : PyFile → Except PyError String
  convert_image_to_text : PyFile → Except PyError String
  extract_text_from_docx : PyFile → Except PyError String
  convert_xlsx_to_text : PyFile → Except PyError String
  csv_to_text : PyFile → Except PyError String

/-- The body of the loop in ContentExtractor.get_text_from_docs for a
single file: classify, then dispatch on the returned tag through the
if/elif chain of the source.  There is no branch for the TXT tag, so a
TXT file reaches the final else, which raises Exception naming the
file TYPE (not the file name). -/
def processFile (env : Extractors) (file : PyFile) : Except PyError String :=
  match identify_file_type env.sniff file with
  | Except.error e => Except.error e
  | Except.ok file_type =>
    if file_type = PDF then env.convert_pdf_to_text file
    else if file_type = IMAGE then env.convert_image_to_text file
    else if file_type = DOCX then env.extract_text_from_docx file
    else if file_type = EXCEL then env.convert_xlsx_to_text file
    else if file_type = CSV then env.csv_to_text file
    else Except.error (PyError.raised ("Unsupported file type: " ++ file_type))

/-- Python dict insertion: overwriting an existing key keeps its
original position, a new key is appended at the end. -/
def dictInsert (d : List (String × String)) (k v : String) : List (String × String) :=
  match d with
  | [] => [(k, v)]
  | (k₁, v₁) :: rest => if k₁ = k then (k₁, v) :: rest else (k₁, v₁) :: dictInsert rest k v

/-- The keys of a modelled Python dict, in insertion order. -/
def dictKeys (d : List (String × String)) : List String := d.map (fun e => e.1)

/-- The loop of ContentExtractor.get_text_from_docs with the dict built
so far in acc; the first exception aborts the whole loop and the local
dict is discarded. -/
def get_text_from_docs_aux (env : Extractors) (acc : List (String × String)) :
    List PyFile → Except PyError (List (String × String))
  | [] => Except.ok acc
  | file :: rest =>
    match processFile env file with
    | Except.error e => Except.error e
    | Except.ok text => get_text_from_docs_aux env (dictInsert acc file.name text) rest

/-- ContentExtractor.get_text_from_docs: fold the per-file processing
over the list of files, starting from the empty dict. -/
def get_text_from_docs (env : Extractors) (all_files : List PyFile) :
    Except PyError (List (String × String)) :=
  get_text_from_docs_aux env [] all_files

/-- Boolean substring test on character lists (Python operator in). -/
def hasSub (pat : List Char) : List Char → Bool
  | [] => pat.isEmpty
  | c :: rest => pat.isPrefixOf (c :: rest) || hasSub pat rest

/-- Python str.lower applied to the characters of a string. -/
def lowerData (s : String) : List Char := s.data.map Char.toLower

/-- The enumeration dir_to_use.rglob of the pattern star-dot-star over
a directory tree (the tree is given as its recursive file listing in
traversal order): only entries whose base name contains a dot match
the pattern. -/
def rglob_all_files (d : List PyFile) : List PyFile :=
  d.filter (fun f => f.name.data.contains '.')

/-- The sample_files filter of get_all_docs_as_text: drop every
enumerated file whose full path contains the substring store after
lowercasing. -/
def sample_files (d : List PyFile) : List PyFile :=
  (rglob_all_files d).filter (fun f => !(hasSub "store".data (lowerData f.path)))

/-- ContentExtractor instance state: self.dir, which __init__ sets to
None when constructed with no directory.  A directory value is
represented by its recursive file listing. -/
structure ContentExtractor where
  dir : Option (List PyFile)

/-- ContentExtractor.get_all_docs_as_text (the undecorated function:
the filecache decorator wrapping it is modelled separately below).
When both the argument and self.dir are None, the call of rglob on
None raises AttributeError. -/
def get_all_docs_as_text (env : Extractors) (self : ContentExtractor)
    (_dir : Option (List PyFile)) : Except PyError (List (String × String)) :=
  let dir_to_use := match _dir with
    | some d => some d
    | none => self.dir
  match dir_to_use with
  | none => Except.error (PyError.attributeError "NoneType object has no attribute rglob")
  | some d => get_text_from_docs env (sample_files d)

/-- The page marker emitted by ContentExtractor.convert_pdf_to_text for
page number n (1-based). -/
def pageMarker (n : Nat) : String := "--- Page " ++ toString n ++ " ---"

/-- One iteration of the loop in convert_pdf_to_text: append the
f-string for an enumerated page, pt.1 being the 0-based page index and
pt.2 the OCR text returned for that page. -/
def pdfFoldStep (extracted_text : String) (pt : Nat × String) : String :=
  extracted_text ++ ("--- Page " ++ toString (pt.1 + 1) ++ " ---\n" ++ pt.2 ++ "\n")

/-- ContentExtractor.convert_pdf_to_text given the list of per-page OCR
results (rasterization and OCR are external collaborators; the list
holds, in document page order, the text the OCR engine returns for
each page). -/
def convert_pdf_to_text (pages : List String) : String :=
  List.foldl pdfFoldStep "" pages.enum

/-- The character stream produced by convert_pdf_to_text for the pages
starting at 0-based index k, written recursively for reasoning. -/
def pdfPages : List String → Nat → List Char
  | [], _ => []
  | t :: rest, k =>
    (pageMarker (k + 1)).data ++ '\n' :: (t.data ++ '\n' :: pdfPages rest (k + 1))

/-- Split a character list at every newline character, the way the text
decomposes into lines. -/
def splitNl : List Char → List (List Char)
  | [] => [[]]
  | c :: rest =>
    if c = '\n' then [] :: splitNl rest
    else
      match splitNl rest with
      | [] => [[c]]
      | l :: ls => (c :: l) :: ls

/-- The line decomposition of pdfPages, for reasoning about markers. -/
def pdfLines : List String → Nat → List (List Char)
  | [], _ => [[]]
  | t :: rest, k =>
    (pageMarker (k + 1)).data :: (splitNl t.data ++ pdfLines rest (k + 1))

/-- The name of the rasterized image that convert_pdf_to_text saves for
0-based page index i inside the temporary directory. -/
def tmpPageFile (i : Nat) : String := "tmp_dir/page_" ++ toString (i + 1) ++ ".png"

/-- Whether a path lies inside the temporary directory that
convert_pdf_to_text creates. -/
def isTmpFile (f : String) : Bool := "tmp_dir/".data.isPrefixOf f.data

/-- The body of the with-block of convert_pdf_to_text, threading the
list of files currently on disk: for each remaining page (first
argument counts pages left, second is the 0-based index of the next
page) the page image is saved into the temporary directory and then
OCR runs on it; an OCR failure propagates out of the loop. -/
def convert_pdf_body (ocr : Nat → Except PyError String) :
    Nat → Nat → List String → String → Except PyError String × List String
  | 0, _, fs, extracted_text => (Except.ok extracted_text, fs)
  | Nat.succ k, i, fs, extracted_text =>
    let fs₁ := fs ++ [tmpPageFile i]
    match ocr i with
    | Except.error e => (Except.error e, fs₁)
    | Except.ok text =>
      convert_pdf_body ocr k (i + 1) fs₁
        (extracted_text ++ ("--- Page " ++ toString (i + 1) ++ " ---\n" ++ text ++ "\n"))

/-- convert_pdf_to_text with its file-system effect: the with statement
around TemporaryDirectory removes the temporary directory and all of
its files when control leaves the block, on normal return and on a
raised exception alike.  The result pairs the outcome with the list of
files on disk after the call returns. -/
def convert_pdf_to_text_fs (ocr : Nat → Except PyError String) (numPages : Nat)
    (fs : List String) : Except PyError String × List String :=
  let r := convert_pdf_body ocr numPages 0 fs ""
  (r.1, r.2.filter (fun f => !(isTmpFile f)))

/-- Python str.join with a newline separator, as used on text_output in
convert_xlsx_to_text. -/
def joinNl : List String → String
  | [] => ""
  | [a] => a
  | a :: rest => a ++ "\n" ++ joinNl rest

/-- The text_output list built by the loop of convert_xlsx_to_text: for
each sheet, in workbook declared order, the sheet header f-string, the
rendered DataFrame block, and a blank-line separator. -/
def xlsxChunks : List (String × String) → List String
  | [] => []
  | s :: rest => ("Sheet: " ++ s.1 ++ "\n") :: s.2 :: "\n\n" :: xlsxChunks rest

/-- ContentExtractor.convert_xlsx_to_text given the workbook as its
list of sheets in declared order, each a pair of sheet name and the
tabular text block pandas renders for it (pandas is an external
collaborator). -/
def convert_xlsx_to_text (sheets : List (String × String)) : String :=
  joinNl (sheets.foldl (fun text_output s =>
    text_output ++ [("Sheet: " ++ s.1 ++ "\n"), s.2, "\n\n"]) [])

/-- The fully concatenated form of the spreadsheet rendering: for each
sheet in order, its header followed by its block, with the separators
the join inserts. -/
def xlsxRendered : List (String × String) → String
  | [] => ""
  | [s] => "Sheet: " ++ s.1 ++ "\n" ++ "\n" ++ s.2 ++ "\n" ++ "\n\n"
  | s :: rest =>
    "Sheet: " ++ s.1 ++ "\n" ++ "\n" ++ s.2 ++ "\n" ++ "\n\n" ++ "\n" ++ xlsxRendered rest

/-- The number of seconds of validity passed to the filecache decorator
on get_all_docs_as_text. -/
def TTL_SECONDS : Nat := 60 * 60

/-- Modelled from the spec: the on-disk result cache of the filecache
decorator (the decorator package itself is not part of this
repository).  Per the spec, a cache entry holds a result keyed by the
call key together with its creation timestamp, and expires after the
time-to-live. -/
structure CacheState (α : Type) where
  entries : List (String × α × Nat)

/-- Modelled from the spec: look up the entry stored for a key. -/
def cacheFind {α : Type} : List (String × α × Nat) → String → Option (α × Nat)
  | [], _ => none
  | (k₁, v, ts) :: rest, k => if k₁ = k then some (v, ts) else cacheFind rest k

/-- Modelled from the spec: one call through the filecache decorator at
time now.  A stored entry younger than the lifetime is returned as is
and the wrapped function is not invoked; otherwise the wrapped
function runs and its result is stored with the current timestamp.
The boolean records whether the wrapped function was invoked. -/
def cachedCall {α : Type} (lifetime : Nat) (f : Unit → α) (k : String) (now : Nat)
    (st : CacheState α) : α × CacheState α × Bool :=
  match cacheFind st.entries k with
  | some (v, ts) =>
    if now < ts + lifetime then (v, st, false)
    else
      let v₁ := f ()
      (v₁, CacheState.mk ((k, v₁, now) :: st.entries), true)
  | none =>
    let v₁ := f ()
    (v₁, CacheState.mk ((k, v₁, now) :: st.entries), true)

/-- The function the filecache decorator wraps in the cached entry
point, with the directory argument already supplied. -/
def get_all_docs_as_text_cached (env : Extractors) (self : ContentExtractor)
    (d : List PyFile) : Unit → Except PyError (List (String × String)) :=
  fun _ => get_all_docs_as_text env self (some d)

/-- The empty cache state for the corpus-result type. -/
def emptyCache : CacheState (Except PyError (List (String × String))) :=
  CacheState.mk []

/-- Concrete collaborator bundle where every file sniffs as a PDF and
every routine succeeds with the text t. -/
def envAllOk : Extractors :=
  Extractors.mk (fun _ => "application/pdf")
    (fun _ => Except.ok "t") (fun _ => Except.ok "t") (fun _ => Except.ok "t")
    (fun _ => Except.ok "t") (fun _ => Except.ok "t")

/-- Concrete collaborator bundle where every file sniffs as plain text
and every routine succeeds. -/
def envTxt : Extractors :=
  Extractors.mk (fun _ => "text/plain")
    (fun _ => Except.ok "t") (fun _ => Except.ok "t") (fun _ => Except.ok "t")
    (fun _ => Except.ok "t") (fun _ => Except.ok "t")

/-- Concrete collaborator bundle where every file sniffs as a PDF and
the PDF routine fails with a library error that does not mention any
file name. -/
def envPdfCorrupt : Extractors :=
  Extractors.mk (fun _ => "application/pdf")
    (fun _ => Except.error (PyError.raised "corrupt stream"))
    (fun _ => Except.ok "t") (fun _ => Except.ok "t")
    (fun _ => Except.ok "t") (fun _ => Except.ok "t")

/-- A plain-text file used as concrete input. -/
def notesTxt : PyFile := PyFile.mk "docs/notes.txt" "notes.txt" []

/-- A PDF file used as concrete input. -/
def aPdf : PyFile := PyFile.mk "docs/a.pdf" "a.pdf" []

/-- A file with no dot in its name, so the rglob pattern star-dot-star
does not enumerate it. -/
def readmeFile : PyFile := PyFile.mk "docs/README" "README" []

/-- A one-file directory tree used as concrete input. -/
def treePdf : List PyFile := [aPdf]

/-- A two-sheet workbook used as concrete input. -/
def demoSheets : List (String × String) := [("S1", "a 1"), ("S2", "b 2")]

/-! ## Theorems -/

theorem identify_eq_classifyCore (sniff : List UInt8 → String) (f : PyFile) :
    identify_file_type sniff f = classifyCore (sniff f.content) f.name := rfl

/-- Claim C1: the spec says a file whose content signature is
text/plain has its bytes read as text and included in the result, but
the dispatch in get_text_from_docs has no branch for the TXT tag that
identify_file_type returns for text/plain, so the very type the
classifier declares supported is then rejected as unsupported: the
call raises Exception with the message Unsupported file type: TXT. -/
theorem c1_plain_text_unsupported :
    identify_file_type envTxt.sniff notesTxt = Except.ok TXT
    ∧ get_text_from_docs envTxt [notesTxt]
        = Except.error (PyError.raised "Unsupported file type: TXT") :=
  ⟨rfl, rfl⟩

/-- Claim C10: constructing the extractor with no directory and calling
get_all_docs_as_text without a directory argument fails with an
AttributeError from calling rglob on None, which is not one of the
raised Exception error types the design documents. -/
theorem c10_none_dir (env : Extractors) :
    get_all_docs_as_text env (ContentExtractor.mk none) none
      = Except.error (PyError.attributeError "NoneType object has no attribute rglob")
    ∧ ∀ s, PyError.attributeError "NoneType object has no attribute rglob"
        ≠ PyError.raised s :=
  ⟨rfl, fun _ h => PyError.noConfusion h⟩

/-- Claim C2, counterexample: a directory containing a single file
named README (no dot in its name, path free of the substring store) is
enumerated by rglob star-dot-star not at all, so the call succeeds
with an empty mapping even though the claim requires README to be
classified, extracted and included. -/
theorem c2_counterexample :
    get_all_docs_as_text envAllOk (ContentExtractor.mk (some [readmeFile])) none
      = Except.ok []
    ∧ hasSub "store".data (lowerData readmeFile.path) = false
    ∧ ¬("README" ∈ dictKeys []) :=
  ⟨rfl, rfl, by simp [dictKeys]⟩

/-- Claim C4, counterexample: when the PDF extraction routine fails
with a library error whose message does not contain the file name, the
whole call aborts with exactly that error, so the surfaced error does
not identify the offending file by name. -/
theorem c4_counterexample :
    get_text_from_docs envPdfCorrupt [aPdf]
      = Except.error (PyError.raised "corrupt stream")
    ∧ hasSub "a.pdf".data "corrupt stream".data = false :=
  ⟨rfl, rfl⟩

/-- Claim C3: identify_file_type maps each supported content signature
to its documented tag, and any other signature to a raised Exception
naming the offending file. -/
theorem c3_classify_table (sniff : List UInt8 → String) (f : PyFile) :
    (sniff f.content = "application/pdf" → identify_file_type sniff f = Except.ok PDF)
    ∧ (sniff f.content ∈ ["image/jpeg", "image/png", "image/gif", "image/tiff"] →
        identify_file_type sniff f = Except.ok IMAGE)
    ∧ (sniff f.content = "application/vnd.openxmlformats-officedocument.wordprocessingml.document" →
        identify_file_type sniff f = Except.ok DOCX)
    ∧ (sniff f.content = "text/plain" → identify_file_type sniff f = Except.ok TXT)
    ∧ (sniff f.content ∈ ["application/vnd.openxmlformats-officedocument.spreadsheetml.sheet",
        "application/vnd.ms-excel"] → identify_file_type sniff f = Except.ok EXCEL)
    ∧ (sniff f.content ∈ ["text/csv", "application/csv"] →
        identify_file_type sniff f = Except.ok CSV)
    ∧ (sniff f.content ∉ ["application/pdf", "image/jpeg", "image/png", "image/gif",
        "image/tiff", "application/vnd.openxmlformats-officedocument.wordprocessingml.document",
        "text/plain", "application/vnd.openxmlformats-officedocument.spreadsheetml.sheet",
        "application/vnd.ms-excel", "text/csv", "application/csv"] →
        identify_file_type sniff f
          = Except.error (PyError.raised ("Unsupported file type: " ++ f.name))) := by
  rw [identify_eq_classifyCore]
  refine ⟨?_, ?_, ?_, ?_, ?_, ?_, ?_⟩ <;> intro h
  · simp [classifyCore, h]
  · simp only [List.mem_cons, List.not_mem_nil, or_false] at h
    rcases h with h | h | h | h <;> simp [classifyCore, h]
  · simp [classifyCore, h]
  · simp [classifyCore, h]
  · simp only [List.mem_cons, List.not_mem_nil, or_false] at h
    rcases h with h | h <;> simp [classifyCore, h]
  · simp only [List.mem_cons, List.not_mem_nil, or_false] at h
    rcases h with h | h <;> simp [classifyCore, h]
  · simp only [List.mem_cons, List.not_mem_nil, or_false, not_or] at h
    obtain ⟨h1, h2, h3, h4, h5, h6, h7, h8, h9, h10, h11⟩ := h
    simp [classifyCore, h1, h2, h3, h4, h5, h6, h7, h8, h9, h10, h11]

/-- Claim C3 witness: a ZIP archive signature is not in the table and
is rejected with an error naming the file. -/
theorem c3_witness :
    (("application/zip" : String) ∉ ["application/pdf", "image/jpeg", "image/png",
      "image/gif", "image/tiff",
      "application/vnd.openxmlformats-officedocument.wordprocessingml.document",
      "text/plain", "application/vnd.openxmlformats-officedocument.spreadsheetml.sheet",
      "application/vnd.ms-excel", "text/csv", "application/csv"])
    ∧ identify_file_type (fun _ => "application/zip") aPdf
        = Except.error (PyError.raised ("Unsupported file type: " ++ aPdf.name)) :=
  ⟨by decide, (c3_classify_table (fun _ => "application/zip") aPdf).2.2.2.2.2.2 (by decide)⟩

/-- Claim C9: classification depends on file content only; two files
with the same bytes receive the same tag, or fail with the same
unsupported-type error up to the reported file name. -/
theorem c9_content_only (sniff : List UInt8 → String) (content : List UInt8)
    (p₁ n₁ p₂ n₂ : String) :
    (∃ tag, identify_file_type sniff (PyFile.mk p₁ n₁ content) = Except.ok tag
        ∧ identify_file_type sniff (PyFile.mk p₂ n₂ content) = Except.ok tag)
    ∨ (identify_file_type sniff (PyFile.mk p₁ n₁ content)
          = Except.error (PyError.raised ("Unsupported file type: " ++ n₁))
        ∧ identify_file_type sniff (PyFile.mk p₂ n₂ content)
          = Except.error (PyError.raised ("Unsupported file type: " ++ n₂))) := by
  rw [identify_eq_classifyCore, identify_eq_classifyCore]
  unfold classifyCore
  split_ifs <;> first
    | exact Or.inl ⟨_, rfl, rfl⟩
    | exact Or.inr ⟨rfl, rfl⟩

/-- Claim C8: through the modelled filecache decorator with the 3600
second lifetime from the source, a first call at time t1 that
populates the cache and a second call at t2 within the lifetime return
the very same output with the wrapped extraction not invoked and the
state unchanged; a second call at or after expiry re-invokes the
extraction and stores the fresh result under the current timestamp. -/
theorem c8_cache_ttl (env : Extractors) (self : ContentExtractor) (d : List PyFile)
    (k : String) (t1 t2 : Nat) (st₀ : CacheState (Except PyError (List (String × String))))
    (hmiss : cacheFind st₀.entries k = none) :
    (t2 < t1 + TTL_SECONDS →
      cachedCall TTL_SECONDS (get_all_docs_as_text_cached env self d) k t2
          (cachedCall TTL_SECONDS (get_all_docs_as_text_cached env self d) k t1 st₀).2.1
        = ((cachedCall TTL_SECONDS (get_all_docs_as_text_cached env self d) k t1 st₀).1,
           (cachedCall TTL_SECONDS (get_all_docs_as_text_cached env self d) k t1 st₀).2.1,
           false))
    ∧ (t1 + TTL_SECONDS ≤ t2 →
      (cachedCall TTL_SECONDS (get_all_docs_as_text_cached env self d) k t2
          (cachedCall TTL_SECONDS (get_all_docs_as_text_cached env self d) k t1 st₀).2.1).2.2
        = true
      ∧ (cachedCall TTL_SECONDS (get_all_docs_as_text_cached env self d) k t2
          (cachedCall TTL_SECONDS (get_all_docs_as_text_cached env self d) k t1 st₀).2.1).1
        = get_all_docs_as_text env self (some d)
      ∧ cacheFind (cachedCall TTL_SECONDS (get_all_docs_as_text_cached env self d) k t2
            (cachedCall TTL_SECONDS (get_all_docs_as_text_cached env self d) k t1 st₀).2.1).2.1.entries
            k
        = some (get_all_docs_as_text env self (some d), t2)) := by
  have h1 : cachedCall TTL_SECONDS (get_all_docs_as_text_cached env self d) k t1 st₀
      = (get_all_docs_as_text_cached env self d (),
         CacheState.mk ((k, get_all_docs_as_text_cached env self d (), t1) :: st₀.entries),
         true) := by
    simp [cachedCall, hmiss]
  constructor
  · intro hlt
    rw [h1]
    simp [cachedCall, cacheFind, hlt]
  · intro hge
    rw [h1]
    have hnlt : ¬ t2 < t1 + TTL_SECONDS := by omega
    simp [cachedCall, cacheFind, hnlt, get_all_docs_as_text_cached]

/-- Claim C8 witness: concrete run with an empty initial cache, a hit
one second later and a miss exactly at expiry. -/
theorem c8_witness :
    (cacheFind emptyCache.entries "dir" = none)
    ∧ ((1 < 0 + TTL_SECONDS →
        cachedCall TTL_SECONDS (get_all_docs_as_text_cached envAllOk (ContentExtractor.mk none) treePdf) "dir" 1
            (cachedCall TTL_SECONDS (get_all_docs_as_text_cached envAllOk (ContentExtractor.mk none) treePdf) "dir" 0 emptyCache).2.1
          = ((cachedCall TTL_SECONDS (get_all_docs_as_text_cached envAllOk (ContentExtractor.mk none) treePdf) "dir" 0 emptyCache).1,
             (cachedCall TTL_SECONDS (get_all_docs_as_text_cached envAllOk (ContentExtractor.mk none) treePdf) "dir" 0 emptyCache).2.1,
             false))
      ∧ (0 + TTL_SECONDS ≤ 1 →
        (cachedCall TTL_SECONDS (get_all_docs_as_text_cached envAllOk (ContentExtractor.mk none) treePdf) "dir" 1
            (cachedCall TTL_SECONDS (get_all_docs_as_text_cached envAllOk (ContentExtractor.mk none) treePdf) "dir" 0 emptyCache).2.1).2.2
          = true
        ∧ (cachedCall TTL_SECONDS (get_all_docs_as_text_cached envAllOk (ContentExtractor.mk none) treePdf) "dir" 1
            (cachedCall TTL_SECONDS (get_all_docs_as_text_cached envAllOk (ContentExtractor.mk none) treePdf) "dir" 0 emptyCache).2.1).1
          = get_all_docs_as_text envAllOk (ContentExtractor.mk none) (some treePdf)
        ∧ cacheFind (cachedCall TTL_SECONDS (get_all_docs_as_text_cached envAllOk (ContentExtractor.mk none) treePdf) "dir" 1
              (cachedCall TTL_SECONDS (get_all_docs_as_text_cached envAllOk (ContentExtractor.mk none) treePdf) "dir" 0 emptyCache).2.1).2.1.entries
              "dir"
          = some (get_all_docs_as_text envAllOk (ContentExtractor.mk none) (some treePdf), 1))) :=
  ⟨rfl, c8_cache_ttl envAllOk (ContentExtractor.mk none) treePdf "dir" 0 1 emptyCache rfl⟩

theorem dictKeys_mem_insert (d : List (String × String)) (k v x : String) :
    x ∈ dictKeys (dictInsert d k v) ↔ x ∈ dictKeys d ∨ x = k := by
  induction d with
  | nil => simp [dictInsert, dictKeys]
  | cons e rest ih =>
    obtain ⟨k₁, v₁⟩ := e
    by_cases hk : k₁ = k
    · subst hk
      simp [dictInsert, dictKeys]
      tauto
    · simp only [dictInsert, if_neg hk]
      simp [dictKeys] at ih ⊢
      tauto

theorem get_text_from_docs_aux_ok_keys (env : Extractors) :
    ∀ (files : List PyFile) (acc m : List (String × String)),
      get_text_from_docs_aux env acc files = Except.ok m →
      ∀ x, x ∈ dictKeys m ↔ x ∈ dictKeys acc ∨ x ∈ files.map (fun f => f.name) := by
  intro files
  induction files with
  | nil =>
    intro acc m h x
    simp only [get_text_from_docs_aux, Except.ok.injEq] at h
    subst h
    simp
  | cons f rest ih =>
    intro acc m h x
    simp only [get_text_from_docs_aux] at h
    cases hp : processFile env f with
    | error e => rw [hp] at h; cases h
    | ok text =>
      rw [hp] at h
      rw [ih (dictInsert acc f.name text) m h x, dictKeys_mem_insert]
      simp
      tauto

theorem mem_sample_files (d : List PyFile) (f : PyFile) :
    f ∈ sample_files d ↔ f ∈ d ∧ f.name.data.contains '.' = true
      ∧ hasSub "store".data (lowerData f.path) = false := by
  simp only [sample_files, rglob_all_files, List.mem_filter, Bool.not_eq_true',
    and_assoc]

/-- Claim C2 (amended): when a call of get_all_docs_as_text on a
directory succeeds, a file of the tree is enumerated and processed iff
its base name matches the rglob pattern star-dot-star, that is
contains a dot, and its full path does not contain the substring store
case-insensitively; names of exactly the files passing both filters
appear as keys of the result. -/
theorem c2_glob_store_filter (env : Extractors) (tree : List PyFile)
    (m : List (String × String))
    (hsucc : get_all_docs_as_text env (ContentExtractor.mk (some tree)) none = Except.ok m) :
    (∀ f, f ∈ sample_files tree ↔ f ∈ tree ∧ f.name.data.contains '.' = true
        ∧ hasSub "store".data (lowerData f.path) = false)
    ∧ (∀ f ∈ tree, f.name.data.contains '.' = true →
        hasSub "store".data (lowerData f.path) = false → f.name ∈ dictKeys m)
    ∧ (∀ x ∈ dictKeys m, ∃ f, f ∈ tree ∧ f.name.data.contains '.' = true
        ∧ hasSub "store".data (lowerData f.path) = false ∧ f.name = x) := by
  have hm : get_text_from_docs_aux env [] (sample_files tree) = Except.ok m := hsucc
  have hkeys := get_text_from_docs_aux_ok_keys env (sample_files tree) [] m hm
  refine ⟨fun f => mem_sample_files tree f, ?_, ?_⟩
  · intro f hf hdot hstore
    have hmem : f.name ∈ (sample_files tree).map (fun g => g.name) :=
      List.mem_map.mpr ⟨f, (mem_sample_files tree f).mpr ⟨hf, hdot, hstore⟩, rfl⟩
    exact (hkeys f.name).mpr (Or.inr hmem)
  · intro x hx
    rcases (hkeys x).mp hx with h | h
    · simp [dictKeys] at h
    · rcases List.mem_map.mp h with ⟨f, hf, rfl⟩
      rcases (mem_sample_files tree f).mp hf with ⟨h1, h2, h3⟩
      exact ⟨f, h1, h2, h3, rfl⟩

/-- Claim C2 witness: a successful call on a one-PDF directory. -/
theorem c2_witness :
    (get_all_docs_as_text envAllOk (ContentExtractor.mk (some treePdf)) none
        = Except.ok [("a.pdf", "t")])
    ∧ ((∀ f, f ∈ sample_files treePdf ↔ f ∈ treePdf ∧ f.name.data.contains '.' = true
          ∧ hasSub "store".data (lowerData f.path) = false)
      ∧ (∀ f ∈ treePdf, f.name.data.contains '.' = true →
          hasSub "store".data (lowerData f.path) = false →
          f.name ∈ dictKeys [("a.pdf", "t")])
      ∧ (∀ x ∈ dictKeys [("a.pdf", "t")], ∃ f, f ∈ treePdf
          ∧ f.name.data.contains '.' = true
          ∧ hasSub "store".data (lowerData f.path) = false ∧ f.name = x)) :=
  ⟨rfl, c2_glob_store_filter envAllOk treePdf [("a.pdf", "t")] rfl⟩

theorem classify_ok_or_named_error (sniff : List UInt8 → String) (g : PyFile) :
    (∃ tag, identify_file_type sniff g = Except.ok tag)
    ∨ identify_file_type sniff g
        = Except.error (PyError.raised ("Unsupported file type: " ++ g.name)) := by
  rw [identify_eq_classifyCore]
  unfold classifyCore
  split_ifs <;> first
    | exact Or.inl ⟨_, rfl⟩
    | exact Or.inr rfl

theorem get_text_from_docs_aux_first_error (env : Extractors) :
    ∀ (pre : List PyFile) (acc : List (String × String)) (f : PyFile)
      (suf : List PyFile) (e : PyError),
      (∀ g ∈ pre, ∃ t, processFile env g = Except.ok t) →
      processFile env f = Except.error e →
      get_text_from_docs_aux env acc (pre ++ f :: suf) = Except.error e := by
  intro pre
  induction pre with
  | nil =>
    intro acc f suf e _ hf
    simp only [List.nil_append, get_text_from_docs_aux, hf]
  | cons g pre ih =>
    intro acc f suf e hpre hf
    obtain ⟨t, hg⟩ := hpre g (by simp)
    simp only [List.cons_append, get_text_from_docs_aux, hg]
    exact ih _ f suf e (fun g₁ h₁ => hpre g₁ (by simp [h₁])) hf

/-- Claim C4 (amended): if classification or a per-document extraction
routine raises an unrecoverable error for some file, the whole call
aborts with that first error exactly as raised and no partial mapping
is returned; classification failures name the offending file in the
error, while an extraction-routine failure is propagated unchanged,
without the file name attached by the pipeline. -/
theorem c4_abort_no_partial (env : Extractors) (pre : List PyFile) (f : PyFile)
    (suf : List PyFile) (e : PyError)
    (hpre : ∀ g ∈ pre, ∃ t, processFile env g = Except.ok t)
    (hf : processFile env f = Except.error e) :
    get_text_from_docs env (pre ++ f :: suf) = Except.error e
    ∧ (∀ m, get_text_from_docs env (pre ++ f :: suf) ≠ Except.ok m)
    ∧ (∀ (sniff : List UInt8 → String) (g : PyFile),
        (∀ tag, identify_file_type sniff g ≠ Except.ok tag) →
        identify_file_type sniff g
          = Except.error (PyError.raised ("Unsupported file type: " ++ g.name))) := by
  have h1 : get_text_from_docs env (pre ++ f :: suf) = Except.error e :=
    get_text_from_docs_aux_first_error env pre [] f suf e hpre hf
  refine ⟨h1, ?_, ?_⟩
  · intro m hm
    rw [h1] at hm
    cases hm
  · intro sniff g hng
    rcases classify_ok_or_named_error sniff g with ⟨tag, h⟩ | h
    · exact absurd h (hng tag)
    · exact h

/-- Claim C4 witness: a corrupt PDF as the only file aborts the call
with the library error and no mapping. -/
theorem c4_witness :
    (∀ g ∈ ([] : List PyFile), ∃ t, processFile envPdfCorrupt g = Except.ok t)
    ∧ (processFile envPdfCorrupt aPdf = Except.error (PyError.raised "corrupt stream"))
    ∧ (get_text_from_docs envPdfCorrupt ([] ++ aPdf :: [])
        = Except.error (PyError.raised "corrupt stream")
      ∧ (∀ m, get_text_from_docs envPdfCorrupt ([] ++ aPdf :: []) ≠ Except.ok m)
      ∧ (∀ (sniff : List UInt8 → String) (g : PyFile),
          (∀ tag, identify_file_type sniff g ≠ Except.ok tag) →
          identify_file_type sniff g
            = Except.error (PyError.raised ("Unsupported file type: " ++ g.name)))) :=
  ⟨by simp, rfl, c4_abort_no_partial envPdfCorrupt [] aPdf [] (PyError.raised "corrupt stream")
    (by simp) rfl⟩

theorem isPrefixOf_append_self {α : Type} [BEq α] [LawfulBEq α] (l t : List α) :
    l.isPrefixOf (l ++ t) = true :=
  List.isPrefixOf_iff_prefix.mpr (List.prefix_append l t)

theorem isTmpFile_tmpPageFile (i : Nat) : isTmpFile (tmpPageFile i) = true := by
  unfold isTmpFile tmpPageFile
  rw [String.data_append, String.data_append]
  have h : ("tmp_dir/page_" : String).data
      = ("tmp_dir/" : String).data ++ ("page_" : String).data := by decide
  rw [h, List.append_assoc]
  exact isPrefixOf_append_self _ _

theorem convert_pdf_body_filter (ocr : Nat → Except PyError String) :
    ∀ (k i : Nat) (fs : List String) (acc : String),
      (convert_pdf_body ocr k i fs acc).2.filter (fun f => !(isTmpFile f))
        = fs.filter (fun f => !(isTmpFile f)) := by
  intro k
  induction k with
  | zero => intro i fs acc; rfl
  | succ k ih =>
    intro i fs acc
    simp only [convert_pdf_body]
    cases ho : ocr i with
    | error e =>
      simp only [ho]
      rw [List.filter_append]
      simp [isTmpFile_tmpPageFile]
    | ok text =>
      simp only [ho]
      rw [ih, List.filter_append]
      simp [isTmpFile_tmpPageFile]

/-- Claim C6: every intermediate rasterized page image lives in the
scoped temporary directory, and the with statement removes that
directory on every exit path, so after convert_pdf_to_text returns,
successfully or with a raised OCR error, the file system holds exactly
the files it held before the call. -/
theorem c6_temp_cleanup (ocr : Nat → Except PyError String) (n : Nat) (fs : List String)
    (h : ∀ f ∈ fs, isTmpFile f = false) :
    (convert_pdf_to_text_fs ocr n fs).2 = fs := by
  show ((convert_pdf_body ocr n 0 fs "").2.filter (fun f => !(isTmpFile f))) = fs
  rw [convert_pdf_body_filter]
  rw [List.filter_eq_self.mpr]
  intro a ha
  simp [h a ha]

theorem digitChar_ne_newline (m : Nat) : Nat.digitChar m ≠ '\n' := by
  unfold Nat.digitChar
  by_cases h0 : m = 0
  · rw [if_pos h0]; decide
  rw [if_neg h0]
  by_cases h1 : m = 1
  · rw [if_pos h1]; decide
  rw [if_neg h1]
  by_cases h2 : m = 2
  · rw [if_pos h2]; decide
  rw [if_neg h2]
  by_cases h3 : m = 3
  · rw [if_pos h3]; decide
  rw [if_neg h3]
  by_cases h4 : m = 4
  · rw [if_pos h4]; decide
  rw [if_neg h4]
  by_cases h5 : m = 5
  · rw [if_pos h5]; decide
  rw [if_neg h5]
  by_cases h6 : m = 6
  · rw [if_pos h6]; decide
  rw [if_neg h6]
  by_cases h7 : m = 7
  · rw [if_pos h7]; decide
  rw [if_neg h7]
  by_cases h8 : m = 8
  · rw [if_pos h8]; decide
  rw [if_neg h8]
  by_cases h9 : m = 9
  · rw [if_pos h9]; decide
  rw [if_neg h9]
  by_cases h10 : m = 10
  · rw [if_pos h10]; decide
  rw [if_neg h10]
  by_cases h11 : m = 11
  · rw [if_pos h11]; decide
  rw [if_neg h11]
  by_cases h12 : m = 12
  · rw [if_pos h12]; decide
  rw [if_neg h12]
  by_cases h13 : m = 13
  · rw [if_pos h13]; decide
  rw [if_neg h13]
  by_cases h14 : m = 14
  · rw [if_pos h14]; decide
  rw [if_neg h14]
  by_cases h15 : m = 15
  · rw [if_pos h15]; decide
  rw [if_neg h15]
  decide

theorem toDigitsCore_mem (b : Nat) :
    ∀ (fuel n : Nat) (ds : List Char) (c : Char),
      c ∈ Nat.toDigitsCore b fuel n ds → c ∈ ds ∨ ∃ m, c = Nat.digitChar m := by
  intro fuel
  induction fuel with
  | zero => intro n ds c h; exact Or.inl h
  | succ fuel ih =>
    intro n ds c h
    simp only [Nat.toDigitsCore] at h
    by_cases hz : n / b = 0
    · rw [if_pos hz] at h
      rcases List.mem_cons.mp h with h | h
      · exact Or.inr ⟨n % b, h⟩
      · exact Or.inl h
    · rw [if_neg hz] at h
      rcases ih (n / b) (Nat.digitChar (n % b) :: ds) c h with h | h
      · rcases List.mem_cons.mp h with h | h
        · exact Or.inr ⟨n % b, h⟩
        · exact Or.inl h
      · exact Or.inr h

theorem repr_data_no_newline (n : Nat) : ('\n' : Char) ∉ (Nat.repr n).data := by
  intro h
  rcases toDigitsCore_mem 10 (n + 1) n [] '\n' h with h₂ | ⟨m, h₂⟩
  · cases h₂
  · exact digitChar_ne_newline m h₂.symm

theorem pageMarker_data_no_newline (n : Nat) : ('\n' : Char) ∉ (pageMarker n).data := by
  intro h
  unfold pageMarker at h
  rw [String.data_append, String.data_append] at h
  rcases List.mem_append.mp h with h | h
  · rcases List.mem_append.mp h with h | h
    · exact absurd h (by decide)
    · exact repr_data_no_newline n h
  · exact absurd h (by decide)

theorem splitNl_ne_nil : ∀ l : List Char, splitNl l ≠ [] := by
  intro l
  induction l with
  | nil => simp [splitNl]
  | cons c rest ih =>
    simp only [splitNl]
    by_cases hc : c = '\n'
    · simp [hc]
    · rw [if_neg hc]
      cases h : splitNl rest with
      | nil => simp
      | cons l ls => simp

theorem splitNl_append_newline (a b : List Char) :
    splitNl (a ++ '\n' :: b) = splitNl a ++ splitNl b := by
  induction a with
  | nil => simp [splitNl]
  | cons c a ih =>
    by_cases hc : c = '\n'
    · subst hc
      show splitNl ('\n' :: (a ++ '\n' :: b)) = splitNl ('\n' :: a) ++ splitNl b
      simp [splitNl, ih]
    · show splitNl (c :: (a ++ '\n' :: b)) = splitNl (c :: a) ++ splitNl b
      rcases h : splitNl a with _ | ⟨l, ls⟩
      · exact absurd h (splitNl_ne_nil a)
      · simp only [splitNl, if_neg hc, ih, h, List.cons_append]

theorem splitNl_no_newline (l : List Char) (h : ('\n' : Char) ∉ l) : splitNl l = [l] := by
  induction l with
  | nil => rfl
  | cons c rest ih =>
    have hc : c ≠ '\n' := fun hc => h (hc ▸ List.mem_cons_self c rest)
    have h₁ : ('\n' : Char) ∉ rest := fun hr => h (List.mem_cons_of_mem c hr)
    simp only [splitNl, if_neg hc, ih h₁]

theorem pdf_foldl_data (pages : List String) :
    ∀ (k : Nat) (acc : String),
      (List.foldl pdfFoldStep acc (pages.enumFrom k)).data = acc.data ++ pdfPages pages k := by
  induction pages with
  | nil => intro k acc; simp [pdfPages, List.enumFrom]
  | cons t rest ih =>
    intro k acc
    rw [List.enumFrom_cons, List.foldl_cons, ih (k + 1) (pdfFoldStep acc (k, t))]
    show (pdfFoldStep acc (k, t)).data ++ pdfPages rest (k + 1)
        = acc.data ++ pdfPages (t :: rest) k
    rw [show pdfPages (t :: rest) k
        = (pageMarker (k + 1)).data ++ '\n' :: (t.data ++ '\n' :: pdfPages rest (k + 1))
      from rfl]
    unfold pdfFoldStep pageMarker
    simp only [String.data_append]
    simp [List.append_assoc, List.cons_append]

theorem convert_pdf_to_text_data (pages : List String) :
    (convert_pdf_to_text pages).data = pdfPages pages 0 := by
  unfold convert_pdf_to_text
  rw [show pages.enum = pages.enumFrom 0 from rfl, pdf_foldl_data pages 0 ""]
  rfl

theorem splitNl_pdfPages : ∀ (pages : List String) (k : Nat),
    splitNl (pdfPages pages k) = pdfLines pages k := by
  intro pages
  induction pages with
  | nil => intro k; rfl
  | cons t rest ih =>
    intro k
    show splitNl ((pageMarker (k + 1)).data ++ '\n' :: (t.data ++ '\n' :: pdfPages rest (k + 1)))
        = (pageMarker (k + 1)).data :: (splitNl t.data ++ pdfLines rest (k + 1))
    rw [splitNl_append_newline, splitNl_append_newline,
      splitNl_no_newline _ (pageMarker_data_no_newline (k + 1)), ih (k + 1)]
    simp

theorem filter_pdfLines : ∀ (pages : List String),
    (∀ t ∈ pages, ∀ l ∈ splitNl t.data, ("--- Page " : String).data.isPrefixOf l = false) →
    ∀ k, (pdfLines pages k).filter (fun l => ("--- Page " : String).data.isPrefixOf l)
      = (List.range pages.length).map (fun i => (pageMarker (k + 1 + i)).data) := by
  intro pages
  induction pages with
  | nil => intro _ k; simp [pdfLines]
  | cons t rest ih =>
    intro h k
    have hmarker : ("--- Page " : String).data.isPrefixOf (pageMarker (k + 1)).data = true := by
      unfold pageMarker
      rw [String.data_append, String.data_append, List.append_assoc]
      exact isPrefixOf_append_self _ _
    have hlines : (splitNl t.data).filter
        (fun l => ("--- Page " : String).data.isPrefixOf l) = [] := by
      rw [List.filter_eq_nil_iff]
      intro l hl
      simp [h t (List.mem_cons_self t rest) l hl]
    simp only [pdfLines]
    rw [List.filter_cons_of_pos hmarker, List.filter_append, hlines,
      ih (fun t₁ ht l hl => h t₁ (List.mem_cons_of_mem _ ht) l hl) (k + 1)]
    simp only [List.length_cons]
    rw [List.range_succ_eq_map]
    simp only [List.map_cons, List.map_map, List.nil_append]
    congr 1
    apply List.map_congr_left
    intro i _
    simp only [Function.comp_apply]
    have harith : k + 1 + 1 + i = k + 1 + (i + 1) := by omega
    rw [harith]

theorem pdfPages_decomp : ∀ (pages : List String) (k i : Nat) (hi : i < pages.length),
    ∃ pre suf, pdfPages pages k
      = pre ++ (pageMarker (k + i + 1)).data ++ '\n' :: (pages.get ⟨i, hi⟩).data ++ '\n' :: suf := by
  intro pages
  induction pages with
  | nil => intro k i hi; exact absurd hi (by simp)
  | cons t rest ih =>
    intro k i hi
    cases i with
    | zero =>
      refine ⟨[], pdfPages rest (k + 1), ?_⟩
      show (pageMarker (k + 1)).data ++ '\n' :: (t.data ++ '\n' :: pdfPages rest (k + 1)) = _
      simp
    | succ i =>
      obtain ⟨pre, suf, hp⟩ := ih (k + 1) i (by simpa using hi)
      refine ⟨(pageMarker (k + 1)).data ++ '\n' :: (t.data ++ '\n' :: pre), suf, ?_⟩
      show (pageMarker (k + 1)).data ++ '\n' :: (t.data ++ '\n' :: pdfPages rest (k + 1)) = _
      rw [hp]
      have harith : k + 1 + i + 1 = k + (i + 1) + 1 := by omega
      rw [harith]
      simp [List.append_assoc]

/-- Claim C5: for a PDF whose per-page OCR texts contain no line
beginning with the marker prefix, the extracted text has exactly the
page-marker lines for pages 1 through n, in page order, and each
marker is followed by that page's OCR text. -/
theorem c5_pdf_page_markers (pages : List String)
    (h : ∀ t ∈ pages, ∀ l ∈ splitNl t.data,
        ("--- Page " : String).data.isPrefixOf l = false) :
    ((splitNl (convert_pdf_to_text pages).data).filter
        (fun l => ("--- Page " : String).data.isPrefixOf l)
      = (List.range pages.length).map (fun i => (pageMarker (i + 1)).data))
    ∧ ∀ i (hi : i < pages.length), ∃ pre suf,
        (convert_pdf_to_text pages).data
          = pre ++ (pageMarker (i + 1)).data ++ '\n' :: (pages.get ⟨i, hi⟩).data ++ '\n' :: suf := by
  constructor
  · rw [convert_pdf_to_text_data, splitNl_pdfPages, filter_pdfLines pages h 0]
    apply List.map_congr_left
    intro i _
    have harith : 0 + 1 + i = i + 1 := by omega
    rw [harith]
  · intro i hi
    obtain ⟨pre, suf, hp⟩ := pdfPages_decomp pages 0 i hi
    refine ⟨pre, suf, ?_⟩
    rw [convert_pdf_to_text_data, hp]
    have harith : 0 + i + 1 = i + 1 := by omega
    rw [harith]

/-- Claim C5 witness: a concrete two-page OCR run. -/
theorem c5_witness :
    (∀ t ∈ (["hello", "wor\nld"] : List String), ∀ l ∈ splitNl t.data,
        ("--- Page " : String).data.isPrefixOf l = false)
    ∧ (((splitNl (convert_pdf_to_text ["hello", "wor\nld"]).data).filter
          (fun l => ("--- Page " : String).data.isPrefixOf l)
        = (List.range (["hello", "wor\nld"] : List String).length).map
            (fun i => (pageMarker (i + 1)).data))
      ∧ ∀ i (hi : i < (["hello", "wor\nld"] : List String).length), ∃ pre suf,
          (convert_pdf_to_text ["hello", "wor\nld"]).data
            = pre ++ (pageMarker (i + 1)).data
                ++ '\n' :: ((["hello", "wor\nld"] : List String).get ⟨i, hi⟩).data
                ++ '\n' :: suf) :=
  ⟨by decide, c5_pdf_page_markers ["hello", "wor\nld"] (by decide)⟩

theorem joinNl_cons_cons (a b : String) (t : List String) :
    joinNl (a :: b :: t) = a ++ "\n" ++ joinNl (b :: t) := rfl

theorem xlsx_foldl_chunks (sheets : List (String × String)) :
    ∀ init, sheets.foldl (fun text_output s =>
        text_output ++ [("Sheet: " ++ s.1 ++ "\n"), s.2, "\n\n"]) init
      = init ++ xlsxChunks sheets := by
  induction sheets with
  | nil => intro init; simp [xlsxChunks]
  | cons s rest ih =>
    intro init
    rw [List.foldl_cons, ih]
    simp [xlsxChunks]

theorem joinNl_xlsxChunks : ∀ sheets : List (String × String),
    joinNl (xlsxChunks sheets) = xlsxRendered sheets := by
  intro sheets
  induction sheets with
  | nil => rfl
  | cons s rest ih =>
    cases rest with
    | nil =>
      apply String.ext
      simp [joinNl, xlsxChunks, xlsxRendered, List.append_assoc]
    | cons r rest₁ =>
      show joinNl (xlsxChunks (s :: r :: rest₁)) = xlsxRendered (s :: r :: rest₁)
      rw [show xlsxChunks (s :: r :: rest₁)
          = ("Sheet: " ++ s.1 ++ "\n") :: s.2 :: "\n\n" :: xlsxChunks (r :: rest₁) from rfl]
      rw [show xlsxChunks (r :: rest₁)
          = ("Sheet: " ++ r.1 ++ "\n") :: r.2 :: "\n\n" :: xlsxChunks rest₁ from rfl]
      rw [joinNl_cons_cons, joinNl_cons_cons, joinNl_cons_cons]
      rw [(show xlsxChunks (r :: rest₁)
          = ("Sheet: " ++ r.1 ++ "\n") :: r.2 :: "\n\n" :: xlsxChunks rest₁ from rfl).symm]
      rw [ih]
      apply String.ext
      simp [xlsxRendered, List.append_assoc]

theorem convert_xlsx_eq_rendered (sheets : List (String × String)) :
    convert_xlsx_to_text sheets = xlsxRendered sheets := by
  unfold convert_xlsx_to_text
  rw [xlsx_foldl_chunks sheets [], List.nil_append, joinNl_xlsxChunks]

theorem xlsxRendered_decomp : ∀ (sheets : List (String × String)) (i : Nat)
    (hi : i < sheets.length),
    ∃ pre suf : String, xlsxRendered sheets
      = pre ++ "Sheet: " ++ (sheets.get ⟨i, hi⟩).1 ++ "\n" ++ "\n"
          ++ (sheets.get ⟨i, hi⟩).2 ++ "\n" ++ suf := by
  intro sheets
  induction sheets with
  | nil => intro i hi; exact absurd hi (by simp)
  | cons s rest ih =>
    intro i hi
    cases i with
    | zero =>
      cases rest with
      | nil =>
        refine ⟨"", "\n\n", ?_⟩
        apply String.ext
        simp [xlsxRendered, List.append_assoc]
      | cons r rest₁ =>
        refine ⟨"", "\n\n" ++ "\n" ++ xlsxRendered (r :: rest₁), ?_⟩
        apply String.ext
        simp [xlsxRendered, List.append_assoc]
    | succ i =>
      cases rest with
      | nil => exact absurd hi (by simp)
      | cons r rest₁ =>
        obtain ⟨pre, suf, hp⟩ := ih i (by simpa using hi)
        refine ⟨"Sheet: " ++ s.1 ++ "\n" ++ "\n" ++ s.2 ++ "\n" ++ "\n\n" ++ "\n" ++ pre,
          suf, ?_⟩
        rw [show xlsxRendered (s :: r :: rest₁)
            = "Sheet: " ++ s.1 ++ "\n" ++ "\n" ++ s.2 ++ "\n" ++ "\n\n" ++ "\n"
                ++ xlsxRendered (r :: rest₁) from rfl]
        rw [hp]
        apply String.ext
        simp [List.append_assoc]

/-- Claim C7: the spreadsheet rendering is, for each sheet in the
workbook declared order, the header Sheet: name followed by that
sheet's rendered block, concatenated in exactly that order with the
join separators; consequently each sheet's header-plus-block appears
inside the output. -/
theorem c7_sheet_order (sheets : List (String × String)) :
    convert_xlsx_to_text sheets = xlsxRendered sheets
    ∧ ∀ i (hi : i < sheets.length), ∃ pre suf : String,
        convert_xlsx_to_text sheets
          = pre ++ "Sheet: " ++ (sheets.get ⟨i, hi⟩).1 ++ "\n" ++ "\n"
              ++ (sheets.get ⟨i, hi⟩).2 ++ "\n" ++ suf := by
  refine ⟨convert_xlsx_eq_rendered sheets, ?_⟩
  intro i hi
  rw [convert_xlsx_eq_rendered sheets]
  exact xlsxRendered_decomp sheets i hi

/-- Claim C7 witness: the concrete two-sheet workbook. -/
theorem c7_witness :
    convert_xlsx_to_text demoSheets = xlsxRendered demoSheets
    ∧ ∀ i (hi : i < demoSheets.length), ∃ pre suf : String,
        convert_xlsx_to_text demoSheets
          = pre ++ "Sheet: " ++ (demoSheets.get ⟨i, hi⟩).1 ++ "\n" ++ "\n"
              ++ (demoSheets.get ⟨i, hi⟩).2 ++ "\n" ++ suf :=
  c7_sheet_order demoSheets

/-- Claim C6 witness: a failing OCR run over two pages leaves a
pre-existing unrelated file untouched and nothing else. -/
theorem c6_witness :
    (∀ f ∈ ["docs/keep.txt"], isTmpFile f = false)
    ∧ (convert_pdf_to_text_fs (fun _ => Except.error (PyError.raised "OCR failed")) 2
        ["docs/keep.txt"]).2 = ["docs/keep.txt"] :=
  ⟨by decide, c6_temp_cleanup (fun _ => Except.error (PyError.raised "OCR failed")) 2
    ["docs/keep.txt"] (by decide)⟩
